import Mathlib

/-!
Verification of the usage-monitor core of the `gnome-shell-claude-code-usage`
extension (file `extension/extension.js`) against its natural-language
specification, together with a model of the standalone probe script
`scripts/test-soup-api.js`.

The JavaScript source is shallowly embedded as executable Lean functions:

* JSON numbers are modelled as `ℚ` (token counters as `ℕ`), JSON fields that
  may be missing as `Option`; JavaScript's `x || y` on numbers (where `0` is
  falsy) is modelled by the `jsOr*` helpers.  `NaN` arithmetic and the exact
  decimal rendering of non-integer numbers are not modelled; no claim
  exercises them.
* Each adapter's failure modes (command timeout, non-zero exit, spawn error,
  empty stdout, `JSON.parse` throwing) are modelled by the constructors of
  `CmdOutcome` / `ApiAttempt`, one per `catch`/early-`return` branch in the
  source.
* The promise chain of `_updateUsageInfo` is sequentialized: the host event
  loop is single threaded, so one tick is modelled as one total function from
  the cycle's environment (both adapters' outcomes) to the next scheduler
  state.
-/

namespace ClaudeUsage

/-- JavaScript `Math.round` on an ideal (rational) number: round half towards
positive infinity. -/
def jsRound (q : ℚ) : ℤ := ⌊q + 1/2⌋

/-- JavaScript `a || b` for an optional numeric field `a`: `a` wins unless it
is absent (`undefined`) or `0` (falsy). -/
def jsOrOpt (a b : Option ℚ) : Option ℚ :=
  match a with
  | some v => if v = 0 then b else some v
  | none => b

/-- JavaScript `a || b || null` for two optional numeric fields: the first
truthy value, else `null` (modelled as `none`). -/
def jsOrNull (a b : Option ℚ) : Option ℚ :=
  match jsOrOpt a b with
  | some v => if v = 0 then none else some v
  | none => none

/-- JavaScript `a || b || 0` for two optional numeric fields. -/
def jsOrZero (a b : Option ℚ) : ℚ := (jsOrNull a b).getD 0

/-- JavaScript `a || d` for an optional numeric field against a number. -/
def jsOrQ (a : Option ℚ) (d : ℚ) : ℚ :=
  match a with
  | some v => if v = 0 then d else v
  | none => d

/-- JavaScript `a || 0` for an optional numeric field. -/
def jsOrQ0 (a : Option ℚ) : ℚ := jsOrQ a 0

/-- Render a number the way the display code interpolates it.  All numbers the
claims exercise are integers; the decimal rendering JavaScript would use for a
non-integer is approximated by `num/den`. -/
def jsNumToString (q : ℚ) : String :=
  if q.den = 1 then toString q.num else toString q.num ++ "/" ++ toString q.den

/-- JavaScript `Number.prototype.toFixed(0)` on an ideal decimal: the nearest
integer, the larger one on ties — the same as `Math.round`. -/
def jsToFixed0 (q : ℚ) : String := toString (jsRound q)

/-- JavaScript `Number.prototype.toFixed(2)` on an ideal decimal. -/
def jsToFixed2 (q : ℚ) : String :=
  let n := jsRound (q * 100)
  let sign := if n < 0 then "-" else ""
  let m := n.natAbs
  let frac := m % 100
  let fracStr := if frac < 10 then "0" ++ toString frac else toString frac
  sign ++ toString (m / 100) ++ "." ++ fracStr

/-- The nested session object of the remote JSON body.  Field names are the
candidate keys probed by `_fetchFromAPIWithCurl` (extension.js:331-337), plus
the `utilization`/`resets_at` keys of the real `five_hour` schema, which that
function never reads but `scripts/test-soup-api.js` does.  `resets_at` is the
parsed timestamp in milliseconds since the epoch. -/
structure CurrentSession where
  percentage : Option ℚ := none
  usage_percentage : Option ℚ := none
  cost : Option ℚ := none
  cost_usd : Option ℚ := none
  cost_limit : Option ℚ := none
  limit : Option ℚ := none
  remaining_minutes : Option ℚ := none
  time_remaining_minutes : Option ℚ := none
  utilization : Option ℚ := none
  resets_at : Option ℤ := none
  deriving Repr, DecidableEq

/-- The parsed remote JSON body (extension.js:331): the candidate top-level
keys `current_session`, `five_hour`, `session`. -/
structure ApiResponse where
  current_session : Option CurrentSession := none
  five_hour : Option CurrentSession := none
  session : Option CurrentSession := none
  deriving Repr, DecidableEq

/-- The record returned by `_fetchFromAPIWithCurl` (extension.js:339-345). -/
structure ApiData where
  percentage : Option ℚ
  cost : ℚ
  costLimit : ℚ
  remainingMinutes : ℚ
  source : String
  deriving Repr, DecidableEq

/-- `tokenCounts` of a ccusage block (extension.js:164-167). -/
structure TokenCounts where
  inputTokens : Option ℕ := none
  outputTokens : Option ℕ := none
  cacheCreationInputTokens : Option ℕ := none
  cacheReadInputTokens : Option ℕ := none
  deriving Repr, DecidableEq

/-- `projection` of a ccusage block (extension.js:173,177). -/
structure Projection where
  remainingMinutes : Option ℚ := none
  totalCost : Option ℚ := none
  deriving Repr, DecidableEq

/-- One entry of ccusage's `blocks` array.  `startTime`/`endTime` are the
parsed `Date` values in milliseconds since the epoch; only well-formed
timestamps are modelled (an invalid `Date` would be `NaN`). -/
structure Block where
  isActive : Bool := false
  tokenCounts : Option TokenCounts := none
  projection : Option Projection := none
  costUSD : Option ℚ := none
  totalTokens : Option ℕ := none
  startTime : ℚ := 0
  endTime : ℚ := 0
  deriving Repr, DecidableEq

/-- The parsed stdout of `ccusage blocks --active --json` (extension.js:153-156). -/
structure CcusageOutput where
  blocks : Option (List Block) := none
  deriving Repr, DecidableEq

/-- The record returned by `_tryGetUsageFromCcusage` (extension.js:211-220).
Note that it has no `percentage` field. -/
structure CcusageData where
  tokensUsed : ℕ
  tokensLimit : ℤ
  remainingMinutes : ℚ
  totalTokens : ℕ
  cost : ℚ
  projectedTotalCost : ℚ
  dynamicLimit : ℚ
  source : String
  deriving Repr, DecidableEq

/-- The GSettings values the modelled code reads. -/
structure Settings where
  useApiFallback : Bool
  showTimeRemaining : Bool
  showPercentage : Bool
  costLimit : ℚ
  tokenLimit : ℤ
  deriving Repr, DecidableEq

/-- Outcome of one `_executeCommand` invocation followed by the adapter's
stdout checks and `JSON.parse`.  The first three constructors are the ways the
promise can reject (timer fired and `force_exit`, non-zero exit status, spawn
error); `noStdout` is the `!result.stdout` early return; `badJson` is
`JSON.parse` throwing. -/
inductive CmdOutcome (α : Type) where
  | timeout
  | procFail
  | spawnFail
  | noStdout
  | badJson
  | json (data : α)
  deriving Repr, DecidableEq

/-- Outcome of `_tryGetUsageFromAPI`'s credential phase (extension.js:249-277)
followed by the curl fetch. -/
inductive ApiAttempt where
  | credsMissing
  | credsLoadFail
  | credsBadJson
  | noAccessToken
  | fetch (o : CmdOutcome ApiResponse)
  deriving Repr, DecidableEq

/-- `tokensUsed` (extension.js:165-167): input + output + cache-creation
tokens; the `cacheReadInputTokens` counter is never read. -/
def tokensUsedOf (tc : TokenCounts) : ℕ :=
  tc.inputTokens.getD 0 + tc.outputTokens.getD 0 + tc.cacheCreationInputTokens.getD 0

/-- `_fetchFromAPIWithCurl` (extension.js:308-351), from the point where the
command outcome is known.  Every thrown error is caught and converted to
`null`. -/
def fetchFromAPIWithCurl : CmdOutcome ApiResponse → Option ApiData
  | .timeout => none
  | .procFail => none
  | .spawnFail => none
  | .noStdout => none
  | .badJson => none
  | .json data =>
    -- const currentSession = data.current_session || data.five_hour || data.session || {};
    let currentSession :=
      match data.current_session with
      | some c => c
      | none =>
        match data.five_hour with
        | some c => c
        | none => data.session.getD {}
    some {
      percentage := jsOrNull currentSession.percentage currentSession.usage_percentage
      cost := jsOrZero currentSession.cost currentSession.cost_usd
      costLimit := jsOrZero currentSession.cost_limit currentSession.limit
      remainingMinutes :=
        jsOrZero currentSession.remaining_minutes currentSession.time_remaining_minutes
      source := "api"
    }

/-- `_tryGetUsageFromAPI` (extension.js:242-288): feature-flag gate, then the
credential phase, then the curl fetch; every failure is caught and converted
to `null`. -/
def tryGetUsageFromAPI (s : Settings) : ApiAttempt → Option ApiData := fun att =>
  if s.useApiFallback = false then none
  else
    match att with
    | .credsMissing => none
    | .credsLoadFail => none
    | .credsBadJson => none
    | .noAccessToken => none
    | .fetch o => fetchFromAPIWithCurl o

/-- `_tryGetUsageFromCcusage` (extension.js:138-226), from the point where the
command outcome is known.  Every thrown error is caught and converted to
`null`; a missing active block is an early `null` return. -/
def tryGetUsageFromCcusage (s : Settings) : CmdOutcome CcusageOutput → Option CcusageData
  | .timeout => none
  | .procFail => none
  | .spawnFail => none
  | .noStdout => none
  | .badJson => none
  | .json data =>
    -- const activeBlock = data.blocks?.find(block => block.isActive);
    match (data.blocks.getD []).find? (fun b => b.isActive) with
    | none => none
    | some activeBlock =>
      let tokenCounts := activeBlock.tokenCounts.getD {}
      let tokensUsed := tokensUsedOf tokenCounts
      let tokensLimit := s.tokenLimit
      let remainingMinutes := jsOrQ0 (activeBlock.projection.bind Projection.remainingMinutes)
      let cost := jsOrQ0 activeBlock.costUSD
      let projectedTotalCost := jsOrQ0 (activeBlock.projection.bind Projection.totalCost)
      let totalSessionMinutes := (activeBlock.endTime - activeBlock.startTime) / (1000 * 60)
      let elapsedMinutes := totalSessionMinutes - remainingMinutes
      let sessionProgress := elapsedMinutes / totalSessionMinutes
      let dynamicFactor := 2.113 - 0.645 * sessionProgress
      let dynamicLimit := projectedTotalCost * dynamicFactor
      some {
        tokensUsed := tokensUsed
        tokensLimit := tokensLimit
        remainingMinutes := remainingMinutes
        totalTokens := activeBlock.totalTokens.getD 0
        cost := cost
        projectedTotalCost := projectedTotalCost
        dynamicLimit := dynamicLimit
        source := "ccusage"
      }

/-- The argument `_displayUsage` destructures (extension.js:418): the fields a
snapshot from either source may carry.  `none` models both `undefined` (the
ccusage record has no `percentage`/`costLimit` key, the API record no
`dynamicLimit` key) and `null`. -/
structure DisplayData where
  cost : ℚ
  remainingMinutes : ℚ
  percentage : Option ℚ := none
  costLimit : Option ℚ := none
  dynamicLimit : Option ℚ := none
  deriving Repr, DecidableEq

/-- View of an API record as `_displayUsage` input. -/
def apiToDisplay (a : ApiData) : DisplayData :=
  { cost := a.cost, remainingMinutes := a.remainingMinutes, percentage := a.percentage,
    costLimit := some a.costLimit, dynamicLimit := none }

/-- View of a ccusage record as `_displayUsage` input: it carries no
`percentage` and no `costLimit` key. -/
def ccusageToDisplay (c : CcusageData) : DisplayData :=
  { cost := c.cost, remainingMinutes := c.remainingMinutes, percentage := none,
    costLimit := none, dynamicLimit := some c.dynamicLimit }

/-- The percentage string of `_displayUsage` (extension.js:420-444): the
three-tier priority ladder.  Tier 3 leaves the initial numeric `0` in place
when its guard fails. -/
def displayPercentage (s : Settings) (d : DisplayData) : String :=
  match d.percentage with
  | some p => toString (jsRound p)
  | none =>
    match d.dynamicLimit with
    | some dl =>
      -- `dynamicLimit && dynamicLimit > 0`: 0 is falsy, so the guard is 0 < dl
      if 0 < dl then toString (jsRound (d.cost / dl * 100))
      else
        let costLimit := jsOrQ d.costLimit s.costLimit
        if 0 < costLimit ∧ 0 < d.cost then jsToFixed0 (d.cost / costLimit * 100) else "0"
    | none =>
      let costLimit := jsOrQ d.costLimit s.costLimit
      if 0 < costLimit ∧ 0 < d.cost then jsToFixed0 (d.cost / costLimit * 100) else "0"

/-- The time portion of `_displayUsage` (extension.js:446-457): `"Hh Mm"` when
at least one hour remains, else `"Mm"`, and empty when disabled or nothing
remains. -/
def displayTimeText (s : Settings) (remainingMinutes : ℚ) : String :=
  if s.showTimeRemaining ∧ 0 < remainingMinutes then
    let hours : ℤ := ⌊remainingMinutes / 60⌋
    let mins : ℚ := remainingMinutes - 60 * (hours : ℚ)
    if 0 < hours then toString hours ++ "h " ++ jsNumToString mins ++ "m"
    else jsNumToString mins ++ "m"
  else ""

/-- `_displayUsage` (extension.js:417-477): the full label text. -/
def displayUsage (s : Settings) (d : DisplayData) : String :=
  let percentage := displayPercentage s d
  let timeText := displayTimeText s d.remainingMinutes
  let t := "Claude: " ++ timeText
  if s.showPercentage then
    if timeText ≠ "" then t ++ " | " ++ percentage ++ "%" else t ++ percentage ++ "%"
  else if timeText = "" then t ++ "$" ++ jsToFixed2 d.cost
  else t

/-- The environment of one reconciliation cycle: how each adapter's command
turns out this tick, and whether `_displayUsage` (the only code the `.catch`
handler can observe throwing) throws. -/
structure CycleEnv where
  api : ApiAttempt
  ccusage : CmdOutcome CcusageOutput
  displayThrows : Bool := false
  deriving Repr, DecidableEq

/-- Which source's fragment one cycle of the promise chain displays
(extension.js:96-111): the API snapshot when it carries a non-null
`percentage`, else the ccusage snapshot when that adapter yields one, else
nothing at all. -/
inductive CycleResult where
  | fromApi (a : ApiData)
  | fromCcusage (c : CcusageData)
  | noData
  deriving Repr, DecidableEq

/-- The ccusage leg of the chain (extension.js:107-111). -/
def resultOfCcusage : Option CcusageData → CycleResult
  | some c => .fromCcusage c
  | none => .noData

/-- The two-source priority ladder of `_updateUsageInfo`'s promise chain
(extension.js:96-111). -/
def reconcile (s : Settings) (env : CycleEnv) : CycleResult :=
  match tryGetUsageFromAPI s env.api with
  | some apiData =>
    -- if (apiData && apiData.percentage !== null && apiData.percentage !== undefined)
    match apiData.percentage with
    | some _ => .fromApi apiData
    | none => resultOfCcusage (tryGetUsageFromCcusage s env.ccusage)
  | none => resultOfCcusage (tryGetUsageFromCcusage s env.ccusage)

/-- The scheduler's shared state: the re-entrancy flag and the panel label. -/
structure SchedState where
  refreshing : Bool
  label : String
  deriving Repr, DecidableEq

/-- One timer tick of `_updateUsageInfo` (extension.js:87-119).  A tick that
arrives while `_refreshing` is set returns immediately; otherwise the label is
set to the refreshing text, the chain runs to completion (the event loop is
single threaded), the `.catch` handler paints the error text when
`_displayUsage` throws, and the `.finally` handler clears the flag on every
outcome. -/
def updateUsageInfo (s : Settings) (env : CycleEnv) (st : SchedState) : SchedState :=
  if st.refreshing then st
  else
    let label :=
      match reconcile s env with
      | .fromApi a =>
        if env.displayThrows then "Claude: Error" else displayUsage s (apiToDisplay a)
      | .fromCcusage c =>
        if env.displayThrows then "Claude: Error" else displayUsage s (ccusageToDisplay c)
      | .noData => "Claude: Refreshing..."
    { refreshing := false, label := label }

/-!
Model of the standalone probe `scripts/test-soup-api.js`, which reads the
real `five_hour` schema (`utilization`, `resets_at`).  `now` is the current
instant in milliseconds since the epoch.
-/

/-- test-soup-api.js:142 — `fiveHour.utilization ? Number(...) : 0`. -/
def testSoupPercentage (fiveHour : CurrentSession) : ℚ :=
  match fiveHour.utilization with
  | some u => if u = 0 then 0 else u
  | none => 0

/-- test-soup-api.js:149-154 — `Math.max(0, Math.floor((resetsAt - now) / 60000))`,
and `0` when the response carries no reset timestamp. -/
def testSoupRemainingMinutes (fiveHour : CurrentSession) (now : ℤ) : ℤ :=
  match fiveHour.resets_at with
  | some r => max 0 (Int.fdiv (r - now) (1000 * 60))
  | none => 0

/-- test-soup-api.js:161 — the display text the probe script predicts,
`"Claude: Hh Mm | P%"`, with no special case for a zero hour count. -/
def testSoupExpectedDisplay (fiveHour : CurrentSession) (now : ℤ) : String :=
  let remainingMinutes := testSoupRemainingMinutes fiveHour now
  "Claude: " ++ toString (remainingMinutes / 60) ++ "h " ++
    toString (remainingMinutes % 60) ++ "m | " ++
    jsNumToString (testSoupPercentage fiveHour) ++ "%"

/-!  Shared concrete sample values used to evaluate the model. -/

/-- A settings bundle with the remote source enabled and both display toggles
on (the defaults the E2E scenarios assume). -/
def sampleSettings : Settings :=
  { useApiFallback := true, showTimeRemaining := true, showPercentage := true,
    costLimit := 5, tokenLimit := 88000 }

/-- A well-formed active ccusage block: the token counters of property P5, a
5-hour window (300 minutes) half elapsed, cost 1 USD, projected total 2 USD. -/
def activeBlockSample : Block :=
  { isActive := true,
    tokenCounts := some { inputTokens := some 10, outputTokens := some 5,
                          cacheCreationInputTokens := some 3,
                          cacheReadInputTokens := some 1000 },
    projection := some { remainingMinutes := some 150, totalCost := some 2 },
    costUSD := some 1,
    startTime := 0, endTime := 18000000 }

/-- The remote body of E2E scenario A: the real `five_hour` schema with
`utilization` 29 and a reset timestamp 18.5 minutes (1110000 ms) after the
instant taken as `now = 0`. -/
def fiveHour29 : CurrentSession :=
  { utilization := some 29, resets_at := some 1110000 }

/-!  Claim theorems. -/

/-- C1 (code evaluated at the failing input): when both sources yield no data
in one cycle — here the remote curl times out and the ccusage process exits
non-zero — the cycle raises no error and paints no error text: the label is
left at the transient "Claude: Refreshing..." set at the start of the tick.
The refreshing flag does return to idle.  This contradicts the claim (and the
function's own doc comment), which say a terminal error is raised and the
designated error text is displayed. -/
theorem C1_both_sources_fail_shows_no_error :
    updateUsageInfo sampleSettings
      { api := .fetch .timeout, ccusage := .procFail, displayThrows := false }
      { refreshing := false, label := "Claude: ..." } =
    { refreshing := false, label := "Claude: Refreshing..." } := by decide

/-- C5: the scheduler never lets two reconciliations overlap.  A tick that
arrives while the refreshing flag is set is a no-op that changes nothing (the
tick is dropped, not queued), and a tick that starts from idle ends with the
flag back at idle for every outcome of the cycle — success, soft failure of
either or both sources, or a throw out of the display path. -/
theorem C5_scheduler_no_overlap (s : Settings) (env : CycleEnv) (st : SchedState) :
    (st.refreshing = true → updateUsageInfo s env st = st) ∧
    (st.refreshing = false → (updateUsageInfo s env st).refreshing = false) := by
  constructor
  · intro h
    simp [updateUsageInfo, h]
  · intro h
    simp [updateUsageInfo, h]

/-- Witness for C5: a dropped tick while running, and an idle flag after a
cycle in which both sources fail. -/
theorem C5_scheduler_no_overlap_witness :
    updateUsageInfo sampleSettings
      { api := .fetch .timeout, ccusage := .procFail, displayThrows := false }
      { refreshing := true, label := "busy" } =
      { refreshing := true, label := "busy" } ∧
    (updateUsageInfo sampleSettings
      { api := .fetch .timeout, ccusage := .procFail, displayThrows := true }
      { refreshing := false, label := "idle" }).refreshing = false :=
  ⟨(C5_scheduler_no_overlap sampleSettings
      { api := .fetch .timeout, ccusage := .procFail, displayThrows := false }
      { refreshing := true, label := "busy" }).1 rfl,
   (C5_scheduler_no_overlap sampleSettings
      { api := .fetch .timeout, ccusage := .procFail, displayThrows := true }
      { refreshing := false, label := "idle" }).2 rfl⟩

/-- C6: the derived tokens-used figure is the sum of exactly the input, output
and cache-creation counters; the cache-read counter is excluded.  At the
counters of property P5 the figure is 18, not 1018, and the full local adapter
reports 18 for a block carrying those counters. -/
theorem C6_token_sum_excludes_cache_read :
    tokensUsedOf { inputTokens := some 10, outputTokens := some 5,
                   cacheCreationInputTokens := some 3,
                   cacheReadInputTokens := some 1000 } = 18 ∧
    (18 : ℕ) ≠ 1018 ∧
    (∀ (tc : TokenCounts) (r : Option ℕ),
      tokensUsedOf { tc with cacheReadInputTokens := r } = tokensUsedOf tc) ∧
    (tryGetUsageFromCcusage sampleSettings
        (.json { blocks := some [activeBlockSample] })).map CcusageData.tokensUsed =
      some 18 := by
  refine ⟨by decide, by decide, ?_, by decide⟩
  intro tc r
  rfl

/-- C8 (code evaluated at the failing input): on the real remote schema —
`five_hour` with `utilization` and a `resets_at` timestamp 18.5 minutes ahead
— the extension's adapter reports `remainingMinutes` 0: it reads only the
`remaining_minutes`/`time_remaining_minutes` candidate keys and never the
reset timestamp.  The subtract-now, floor-to-minutes, clamp-to-nonnegative
derivation the claim describes exists only in the standalone probe script,
where it indeed yields 18 here and is clamped to be nonnegative in general. -/
theorem C8_remaining_minutes_not_from_reset_timestamp :
    (fetchFromAPIWithCurl (.json { five_hour := some fiveHour29 })).map
      ApiData.remainingMinutes = some 0 ∧
    testSoupRemainingMinutes fiveHour29 0 = 18 ∧
    (∀ (fh : CurrentSession) (now : ℤ), 0 ≤ testSoupRemainingMinutes fh now) ∧
    (∀ (r now : ℤ),
      testSoupRemainingMinutes { resets_at := some r } now =
        max 0 (Int.fdiv (r - now) (1000 * 60))) := by
  refine ⟨by decide, by decide, ?_, ?_⟩
  · intro fh now
    unfold testSoupRemainingMinutes
    cases fh.resets_at with
    | none => exact le_refl 0
    | some r => exact le_max_left 0 _
  · intro r now
    rfl

/-- C7: every per-source failure mode — command timeout, non-zero process
exit, spawn error, empty stdout, malformed JSON, and on the remote side a
missing credentials file, unreadable or malformed credentials, or an absent
token — is caught inside its adapter and converted to a no-data (`none`)
result.  Within the local adapter a missing active block makes the whole
source yield no data, while the individual fields of an active block default
to zero when absent, producing an all-zero record rather than a failure. -/
theorem C7_adapter_errors_soft_fail :
    (∀ s : Settings,
      tryGetUsageFromCcusage s .timeout = none ∧
      tryGetUsageFromCcusage s .procFail = none ∧
      tryGetUsageFromCcusage s .spawnFail = none ∧
      tryGetUsageFromCcusage s .noStdout = none ∧
      tryGetUsageFromCcusage s .badJson = none) ∧
    (∀ (s : Settings) (data : CcusageOutput),
      (data.blocks.getD []).find? (fun b => b.isActive) = none →
      tryGetUsageFromCcusage s (.json data) = none) ∧
    (∀ (s : Settings) (startTime endTime : ℚ),
      tryGetUsageFromCcusage s
        (.json { blocks := some [{ isActive := true, startTime := startTime,
                                   endTime := endTime }] }) =
        some { tokensUsed := 0, tokensLimit := s.tokenLimit, remainingMinutes := 0,
               totalTokens := 0, cost := 0, projectedTotalCost := 0,
               dynamicLimit := 0, source := "ccusage" }) ∧
    (∀ s : Settings,
      tryGetUsageFromAPI s .credsMissing = none ∧
      tryGetUsageFromAPI s .credsLoadFail = none ∧
      tryGetUsageFromAPI s .credsBadJson = none ∧
      tryGetUsageFromAPI s .noAccessToken = none ∧
      tryGetUsageFromAPI s (.fetch .timeout) = none ∧
      tryGetUsageFromAPI s (.fetch .procFail) = none ∧
      tryGetUsageFromAPI s (.fetch .spawnFail) = none ∧
      tryGetUsageFromAPI s (.fetch .noStdout) = none ∧
      tryGetUsageFromAPI s (.fetch .badJson) = none) := by
  refine ⟨fun s => ⟨rfl, rfl, rfl, rfl, rfl⟩, ?_, ?_, ?_⟩
  · intro s data h
    simp [tryGetUsageFromCcusage, h]
  · intro s startTime endTime
    simp [tryGetUsageFromCcusage, tokensUsedOf, jsOrQ0, jsOrQ]
  · intro s
    cases h : s.useApiFallback <;>
      simp [tryGetUsageFromAPI, fetchFromAPIWithCurl, h]

/-- Witness for C7: the three hypothesis-bearing shapes at concrete inputs —
a timed-out local command, a parsed output whose only block is inactive, and
an all-defaults active block. -/
theorem C7_adapter_errors_soft_fail_witness :
    tryGetUsageFromCcusage sampleSettings .timeout = none ∧
    tryGetUsageFromCcusage sampleSettings
      (.json { blocks := some [{ isActive := false }] }) = none ∧
    tryGetUsageFromCcusage sampleSettings
      (.json { blocks := some [{ isActive := true, startTime := 0,
                                 endTime := 18000000 }] }) =
      some { tokensUsed := 0, tokensLimit := 88000, remainingMinutes := 0,
             totalTokens := 0, cost := 0, projectedTotalCost := 0,
             dynamicLimit := 0, source := "ccusage" } :=
  ⟨(C7_adapter_errors_soft_fail.1 sampleSettings).1,
   C7_adapter_errors_soft_fail.2.1 sampleSettings
     { blocks := some [{ isActive := false }] } (by decide),
   C7_adapter_errors_soft_fail.2.2.1 sampleSettings 0 18000000⟩

/-- C10: a remote response whose percentage field is exactly 0 is
indistinguishable from one with the field absent: the logical-or extraction
chain yields `null`, the snapshot carries no percentage, and the engine falls
back to the local ccusage source for that cycle. -/
theorem C10_zero_percentage_indistinguishable_from_absent
    (s : Settings) (cs : CurrentSession) (cc : CmdOutcome CcusageOutput) (dt : Bool)
    (hapi : s.useApiFallback = true)
    (hp : cs.percentage = some 0) (hup : cs.usage_percentage = none) :
    fetchFromAPIWithCurl (.json { current_session := some cs }) =
      fetchFromAPIWithCurl
        (.json { current_session := some { cs with percentage := none } }) ∧
    (∃ a : ApiData,
      fetchFromAPIWithCurl (.json { current_session := some cs }) = some a ∧
      a.percentage = none) ∧
    reconcile s
      { api := .fetch (.json { current_session := some cs }), ccusage := cc,
        displayThrows := dt } =
      resultOfCcusage (tryGetUsageFromCcusage s cc) := by
  refine ⟨?_, ⟨_, rfl, ?_⟩, ?_⟩
  · simp [fetchFromAPIWithCurl, jsOrNull, jsOrOpt, hp, hup]
  · simp [fetchFromAPIWithCurl, jsOrNull, jsOrOpt, hp, hup]
  · simp [reconcile, tryGetUsageFromAPI, hapi, fetchFromAPIWithCurl, jsOrNull,
      jsOrOpt, hp, hup]

/-- The session object `{percentage: 0}` of the C10 scenario. -/
def zeroPercentSession : CurrentSession := { percentage := some 0 }

/-- The C10 session object with its percentage field removed instead. -/
def absentPercentSession : CurrentSession := { zeroPercentSession with percentage := none }

/-- Witness for C10: the response `{current_session: {percentage: 0}}` with
the remote source enabled, against a timed-out local command. -/
theorem C10_zero_percentage_indistinguishable_from_absent_witness :
    fetchFromAPIWithCurl (.json { current_session := some zeroPercentSession }) =
      fetchFromAPIWithCurl
        (.json { current_session := some absentPercentSession }) ∧
    (∃ a : ApiData,
      fetchFromAPIWithCurl
          (.json { current_session := some zeroPercentSession }) = some a ∧
      a.percentage = none) ∧
    reconcile sampleSettings
      { api := .fetch (.json { current_session := some zeroPercentSession }),
        ccusage := .timeout, displayThrows := false } =
      resultOfCcusage (tryGetUsageFromCcusage sampleSettings .timeout) :=
  C10_zero_percentage_indistinguishable_from_absent sampleSettings
    zeroPercentSession .timeout false rfl rfl rfl

/-!  Evaluation lemmas for the shared sample values.  Rational arithmetic does
not reduce inside the kernel (its normalization uses well-founded recursion),
so concrete runs are evaluated once here through `norm_num` and reused. -/

/-- The record the local adapter produces from `activeBlockSample`: the
half-elapsed window gives sessionProgress 1/2, factor 1.7905, and
dynamicLimit 2 · 1.7905 = 3.581. -/
def ccusageSampleData : CcusageData :=
  { tokensUsed := 18, tokensLimit := 88000, remainingMinutes := 150,
    totalTokens := 0, cost := 1, projectedTotalCost := 2,
    dynamicLimit := 3581 / 1000, source := "ccusage" }

theorem jsRound_eq_of (q : ℚ) (z : ℤ) (h1 : (z : ℚ) ≤ q + 1/2)
    (h2 : q + 1/2 < z + 1) : jsRound q = z := by
  rw [jsRound]
  exact Int.floor_eq_iff.mpr ⟨h1, h2⟩

theorem jsNumToString_intCast (n : ℤ) : jsNumToString (n : ℚ) = toString n := by
  simp [jsNumToString, Rat.den_intCast, Rat.num_intCast]

theorem tryGetUsageFromCcusage_sample :
    tryGetUsageFromCcusage sampleSettings
      (.json { blocks := some [activeBlockSample] }) = some ccusageSampleData := by
  have hfind : List.find? (fun b => b.isActive) [activeBlockSample] =
      some activeBlockSample := rfl
  simp only [tryGetUsageFromCcusage, Option.getD_some, hfind]
  simp only [ccusageSampleData, CcusageData.mk.injEq, activeBlockSample,
    sampleSettings, tokensUsedOf, jsOrQ0, jsOrQ, Option.some_bind]
  norm_num

theorem displayTimeText_150 : displayTimeText sampleSettings (150 : ℚ) = "2h 30m" := by
  have hh : ⌊(150 : ℚ) / 60⌋ = 2 := by
    rw [Int.floor_eq_iff]
    norm_num
  rw [displayTimeText, if_pos (by norm_num [sampleSettings]), hh]
  norm_num [jsNumToString, Rat.den_ofNat, Rat.num_ofNat]
  rfl

theorem displayPercentage_ccusageSample :
    displayPercentage sampleSettings (ccusageToDisplay ccusageSampleData) = "28" := by
  have h28 : jsRound ((1 : ℚ) / (3581 / 1000) * 100) = 28 :=
    jsRound_eq_of _ _ (by norm_num) (by norm_num)
  simp only [displayPercentage, ccusageToDisplay, ccusageSampleData]
  rw [if_pos (by norm_num), h28]
  rfl

theorem displayUsage_ccusageSample :
    displayUsage sampleSettings (ccusageToDisplay ccusageSampleData) =
      "Claude: 2h 30m | 28%" := by
  have ht : displayTimeText sampleSettings (ccusageToDisplay ccusageSampleData).remainingMinutes =
      "2h 30m" := displayTimeText_150
  simp only [displayUsage, ht, displayPercentage_ccusageSample]
  rfl

/-- C2 counterexample: in a cycle where the remote source times out and the
local source yields a valid active-window record (half-elapsed 300-minute
window, cost 1, projected total cost 2), the displayed text carries the
percentage 28 — and 28 is exactly the reverse-engineered formula
round(100 · cost / (projected · (2.113 − 0.645 · progress))).  So a percentage
IS derived from the local source via the formula, refuting the claim that no
reverse-engineered formula is applied. -/
theorem C2_counterexample :
    updateUsageInfo sampleSettings
      { api := .fetch .timeout, ccusage := .json { blocks := some [activeBlockSample] },
        displayThrows := false }
      { refreshing := false, label := "x" } =
      { refreshing := false, label := "Claude: 2h 30m | 28%" } ∧
    (28 : ℤ) = jsRound (1 / (2 * (2.113 - 0.645 * (1 / 2))) * 100) := by
  constructor
  · have happi : tryGetUsageFromAPI sampleSettings (.fetch .timeout) = none := by decide
    have hre : reconcile sampleSettings
        { api := .fetch .timeout, ccusage := .json { blocks := some [activeBlockSample] },
          displayThrows := false } = .fromCcusage ccusageSampleData := by
      simp [reconcile, happi, tryGetUsageFromCcusage_sample, resultOfCcusage]
    simp [updateUsageInfo, hre, displayUsage_ccusageSample]
  · have hq : (1 : ℚ) / (2 * (2.113 - 0.645 * (1 / 2))) * 100 = 100000 / 3581 := by
      norm_num
    rw [hq]
    exact (jsRound_eq_of _ _ (by norm_num) (by norm_num)).symm

/-- C2 as amended: the local adapter's record itself carries no percentage
field and its `remainingMinutes`/`cost` are the active block's values
unmodified (defaulting to 0 when absent); but the adapter still computes a
`dynamicLimit` through the reverse-engineered factor formula
2.113 − 0.645 · sessionProgress, and the display layer derives and shows
percentage = round(100 · cost / dynamicLimit) whenever that limit is
positive. -/
theorem C2_amended (s : Settings) (b : Block) (rest : List Block)
    (hact : b.isActive = true) :
    ∃ c : CcusageData,
      tryGetUsageFromCcusage s (.json { blocks := some (b :: rest) }) = some c ∧
      c.cost = jsOrQ0 b.costUSD ∧
      c.remainingMinutes = jsOrQ0 (b.projection.bind Projection.remainingMinutes) ∧
      c.dynamicLimit =
        jsOrQ0 (b.projection.bind Projection.totalCost) *
          (2.113 - 0.645 *
            ((((b.endTime - b.startTime) / (1000 * 60)) - c.remainingMinutes) /
              ((b.endTime - b.startTime) / (1000 * 60)))) ∧
      (ccusageToDisplay c).percentage = none ∧
      (0 < c.dynamicLimit →
        displayPercentage s (ccusageToDisplay c) =
          toString (jsRound (c.cost / c.dynamicLimit * 100))) := by
  have hfind : (b :: rest).find? (fun b => b.isActive) = some b :=
    List.find?_cons_of_pos _ hact
  have heq : tryGetUsageFromCcusage s (.json { blocks := some (b :: rest) }) =
      some { tokensUsed := tokensUsedOf (b.tokenCounts.getD {}),
             tokensLimit := s.tokenLimit,
             remainingMinutes := jsOrQ0 (b.projection.bind Projection.remainingMinutes),
             totalTokens := b.totalTokens.getD 0,
             cost := jsOrQ0 b.costUSD,
             projectedTotalCost := jsOrQ0 (b.projection.bind Projection.totalCost),
             dynamicLimit := jsOrQ0 (b.projection.bind Projection.totalCost) *
               (2.113 - 0.645 *
                 ((((b.endTime - b.startTime) / (1000 * 60)) -
                     jsOrQ0 (b.projection.bind Projection.remainingMinutes)) /
                   ((b.endTime - b.startTime) / (1000 * 60)))),
             source := "ccusage" } := by
    simp only [tryGetUsageFromCcusage, Option.getD_some, hfind]
  refine ⟨_, heq, rfl, rfl, rfl, rfl, fun h => ?_⟩
  simp [displayPercentage, ccusageToDisplay, h]

/-- Witness for C2 as amended: the sample active block in front of an empty
tail. -/
theorem C2_amended_witness :
    ∃ c : CcusageData,
      tryGetUsageFromCcusage sampleSettings
        (.json { blocks := some (activeBlockSample :: []) }) = some c ∧
      c.cost = jsOrQ0 activeBlockSample.costUSD ∧
      c.remainingMinutes =
        jsOrQ0 (activeBlockSample.projection.bind Projection.remainingMinutes) ∧
      c.dynamicLimit =
        jsOrQ0 (activeBlockSample.projection.bind Projection.totalCost) *
          (2.113 - 0.645 *
            ((((activeBlockSample.endTime - activeBlockSample.startTime) / (1000 * 60)) -
                c.remainingMinutes) /
              ((activeBlockSample.endTime - activeBlockSample.startTime) / (1000 * 60)))) ∧
      (ccusageToDisplay c).percentage = none ∧
      (0 < c.dynamicLimit →
        displayPercentage sampleSettings (ccusageToDisplay c) =
          toString (jsRound (c.cost / c.dynamicLimit * 100))) :=
  C2_amended sampleSettings activeBlockSample [] rfl

/-- C3 counterexample: a remote percentage of exactly 0 lies in [0,100], yet
the snapshot's percentage comes out absent (`none`, not `some 0`) and the
local source IS consulted: the cycle ends displaying the ccusage-derived
label. -/
theorem C3_counterexample :
    (fetchFromAPIWithCurl
        (.json { current_session := some { percentage := some 0 } })).map
      ApiData.percentage = some none ∧
    updateUsageInfo sampleSettings
      { api := .fetch (.json { current_session := some { percentage := some 0 } }),
        ccusage := .json { blocks := some [activeBlockSample] },
        displayThrows := false }
      { refreshing := false, label := "x" } =
      { refreshing := false, label := "Claude: 2h 30m | 28%" } := by
  constructor
  · decide
  · have hapi : tryGetUsageFromAPI sampleSettings
        (.fetch (.json { current_session := some { percentage := some 0 } })) =
        some { percentage := none, cost := 0, costLimit := 0, remainingMinutes := 0,
               source := "api" } := by decide
    have hre : reconcile sampleSettings
        { api := .fetch (.json { current_session := some { percentage := some 0 } }),
          ccusage := .json { blocks := some [activeBlockSample] },
          displayThrows := false } = .fromCcusage ccusageSampleData := by
      simp [reconcile, hapi, tryGetUsageFromCcusage_sample, resultOfCcusage]
    simp [updateUsageInfo, hre, displayUsage_ccusageSample]

/-- C3 as amended: for a remote percentage in (0,100] — nonzero, since a zero
value is falsy and treated as absent — the final snapshot's percentage is that
value exactly, with no recomputation or blending, and the local ccusage source
is not consulted: the cycle's result is the same whatever the local command
would have produced. -/
theorem C3_amended (s : Settings) (cs : CurrentSession) (p : ℚ)
    (fh ss : Option CurrentSession) (cc cc' : CmdOutcome CcusageOutput) (dt dt' : Bool)
    (hapi : s.useApiFallback = true) (hp : cs.percentage = some p)
    (hpos : 0 < p) (hle : p ≤ 100) :
    ∃ a : ApiData,
      tryGetUsageFromAPI s
        (.fetch (.json { current_session := some cs, five_hour := fh, session := ss })) =
        some a ∧
      a.percentage = some p ∧
      reconcile s
        { api := .fetch (.json { current_session := some cs, five_hour := fh,
                                 session := ss }),
          ccusage := cc, displayThrows := dt } = .fromApi a ∧
      reconcile s
        { api := .fetch (.json { current_session := some cs, five_hour := fh,
                                 session := ss }),
          ccusage := cc', displayThrows := dt' } = .fromApi a := by
  have hne : p ≠ 0 := ne_of_gt hpos
  have heq : tryGetUsageFromAPI s
      (.fetch (.json { current_session := some cs, five_hour := fh, session := ss })) =
      some { percentage := some p, cost := jsOrZero cs.cost cs.cost_usd,
             costLimit := jsOrZero cs.cost_limit cs.limit,
             remainingMinutes :=
               jsOrZero cs.remaining_minutes cs.time_remaining_minutes,
             source := "api" } := by
    simp [tryGetUsageFromAPI, hapi, fetchFromAPIWithCurl, jsOrNull, jsOrOpt, hp, hne]
  have hrec : ∀ (cc₀ : CmdOutcome CcusageOutput) (dt₀ : Bool),
      reconcile s
        { api := .fetch (.json { current_session := some cs, five_hour := fh,
                                 session := ss }),
          ccusage := cc₀, displayThrows := dt₀ } =
        .fromApi { percentage := some p, cost := jsOrZero cs.cost cs.cost_usd,
                   costLimit := jsOrZero cs.cost_limit cs.limit,
                   remainingMinutes :=
                     jsOrZero cs.remaining_minutes cs.time_remaining_minutes,
                   source := "api" } := by
    intro cc₀ dt₀
    simp [reconcile, heq]
  exact ⟨_, heq, rfl, hrec cc dt, hrec cc' dt'⟩

/-- Witness for C3 as amended: the utilization 29 of E2E scenario A, supplied
through the `percentage` key, against two different local outcomes. -/
theorem C3_amended_witness :
    ∃ a : ApiData,
      tryGetUsageFromAPI sampleSettings
        (.fetch (.json { current_session := some { percentage := some 29 },
                         five_hour := none, session := none })) = some a ∧
      a.percentage = some 29 ∧
      reconcile sampleSettings
        { api := .fetch (.json { current_session := some { percentage := some 29 },
                                 five_hour := none, session := none }),
          ccusage := .timeout, displayThrows := false } = .fromApi a ∧
      reconcile sampleSettings
        { api := .fetch (.json { current_session := some { percentage := some 29 },
                                 five_hour := none, session := none }),
          ccusage := .badJson, displayThrows := true } = .fromApi a :=
  C3_amended sampleSettings { percentage := some 29 } 29 none none .timeout .badJson
    false true rfl rfl (by norm_num) (by norm_num)

/-- C4 counterexample: a remote percentage of 150 — outside [0,100] — survives
into the snapshot unmodified and is displayed as "150%": it is neither clamped
into the range nor treated as absent. -/
theorem C4_counterexample :
    fetchFromAPIWithCurl
        (.json { current_session := some { percentage := some 150 } }) =
      some { percentage := some 150, cost := 0, costLimit := 0,
             remainingMinutes := 0, source := "api" } ∧
    ¬ (150 : ℚ) ≤ 100 ∧
    displayUsage sampleSettings
      (apiToDisplay { percentage := some 150, cost := 0, costLimit := 0,
                      remainingMinutes := 0, source := "api" }) =
      "Claude: 150%" := by
  refine ⟨by decide, by norm_num, ?_⟩
  have h150 : jsRound (150 : ℚ) = 150 :=
    jsRound_eq_of _ _ (by norm_num) (by norm_num)
  simp only [displayUsage, displayPercentage, displayTimeText, apiToDisplay, h150]
  norm_num [sampleSettings]
  rfl

/-- C4 as amended: a snapshot's percentage, when present, is the raw value the
remote supplied, passed through with no range policy at all: any nonzero value
— in range or not — reaches the snapshot unchanged and is displayed after
rounding; the only coercion in the chain is that exactly 0 (like an absent
field) yields no percentage. -/
theorem C4_amended (p : ℚ) (cs : CurrentSession) (s : Settings)
    (hp : cs.percentage = some p) (hne : p ≠ 0) (hshow : s.showPercentage = true)
    (htime : s.showTimeRemaining = false) :
    (fetchFromAPIWithCurl (.json { current_session := some cs })).map
      ApiData.percentage = some (some p) ∧
    (∀ a : ApiData,
      fetchFromAPIWithCurl (.json { current_session := some cs }) = some a →
      displayUsage s (apiToDisplay a) =
        "Claude: " ++ toString (jsRound p) ++ "%") := by
  constructor
  · simp [fetchFromAPIWithCurl, jsOrNull, jsOrOpt, hp, hne]
  · intro a ha
    have hpa : a.percentage = some p := by
      simp [fetchFromAPIWithCurl, jsOrNull, jsOrOpt, hp, hne] at ha
      rw [← ha]
    simp [displayUsage, displayPercentage, displayTimeText, apiToDisplay, hpa,
      hshow, htime]

/-- Witness for C4 as amended: the out-of-range value 150 with time display
off. -/
theorem C4_amended_witness :
    (fetchFromAPIWithCurl
        (.json { current_session := some { percentage := some 150 } })).map
      ApiData.percentage = some (some 150) ∧
    (∀ a : ApiData,
      fetchFromAPIWithCurl
          (.json { current_session := some { percentage := some 150 } }) = some a →
      displayUsage { useApiFallback := true, showTimeRemaining := false,
                     showPercentage := true, costLimit := 5, tokenLimit := 88000 }
          (apiToDisplay a) =
        "Claude: " ++ toString (jsRound 150) ++ "%") :=
  C4_amended 150 { percentage := some 150 }
    { useApiFallback := true, showTimeRemaining := false, showPercentage := true,
      costLimit := 5, tokenLimit := 88000 }
    rfl (by norm_num) rfl rfl

/-- C9 counterexample: in a cycle where the remote source returns the E2E
scenario A body `{five_hour: {utilization: 29, resets_at: 18.5 min ahead}}`
(and the local command times out), the displayed text is the stale
"Claude: Refreshing..." — it does not end with "| 29%" and contains no time
portion: the adapter recognizes neither `utilization` nor `resets_at`. -/
theorem C9_counterexample :
    (updateUsageInfo sampleSettings
      { api := .fetch (.json { five_hour := some fiveHour29 }), ccusage := .timeout,
        displayThrows := false }
      { refreshing := false, label := "x" }).label = "Claude: Refreshing..." ∧
    ¬ List.IsSuffix "| 29%".data
      (updateUsageInfo sampleSettings
        { api := .fetch (.json { five_hour := some fiveHour29 }), ccusage := .timeout,
          displayThrows := false }
        { refreshing := false, label := "x" }).label.data := by
  decide

/-- C9 as amended: the formatter composes `remainingMinutes` into "Hh Mm" only
when at least one hour remains and into plain "Mm" otherwise, appending
" | P%" when the percentage is present and enabled — so 18 minutes with 29%
renders as "Claude: 18m | 29%", never "0h 18m".  On the scenario A remote body
itself the extension's adapter extracts no percentage and a zero
remainingMinutes; the "0h 18m | 29%" rendering is produced only by the
standalone Soup probe script's own formatter. -/
theorem C9_amended :
    fetchFromAPIWithCurl (.json { five_hour := some fiveHour29 }) =
      some { percentage := none, cost := 0, costLimit := 0, remainingMinutes := 0,
             source := "api" } ∧
    displayUsage sampleSettings
      { cost := 0, remainingMinutes := 18, percentage := some 29 } =
      "Claude: 18m | 29%" ∧
    displayUsage sampleSettings
      { cost := 0, remainingMinutes := 78, percentage := some 29 } =
      "Claude: 1h 18m | 29%" ∧
    testSoupPercentage fiveHour29 = 29 ∧
    testSoupExpectedDisplay fiveHour29 0 = "Claude: 0h 18m | 29%" := by
  have h29 : jsRound (29 : ℚ) = 29 :=
    jsRound_eq_of _ _ (by norm_num) (by norm_num)
  have ht18 : displayTimeText sampleSettings (18 : ℚ) = "18m" := by
    have hh : ⌊(18 : ℚ) / 60⌋ = 0 := by
      rw [Int.floor_eq_iff]
      norm_num
    rw [displayTimeText, if_pos (by norm_num [sampleSettings]), hh]
    norm_num [jsNumToString, Rat.den_ofNat, Rat.num_ofNat]
    rfl
  have ht78 : displayTimeText sampleSettings (78 : ℚ) = "1h 18m" := by
    have hh : ⌊(78 : ℚ) / 60⌋ = 1 := by
      rw [Int.floor_eq_iff]
      norm_num
    rw [displayTimeText, if_pos (by norm_num [sampleSettings]), hh]
    norm_num [jsNumToString, Rat.den_ofNat, Rat.num_ofNat]
    rfl
  refine ⟨by decide, ?_, ?_, by decide, by decide⟩
  · show displayUsage sampleSettings
      { cost := 0, remainingMinutes := 18, percentage := some 29 } = "Claude: 18m | 29%"
    simp only [displayUsage, displayPercentage, ht18, h29]
    rfl
  · show displayUsage sampleSettings
      { cost := 0, remainingMinutes := 78, percentage := some 29 } = "Claude: 1h 18m | 29%"
    simp only [displayUsage, displayPercentage, ht78, h29]
    rfl

end ClaudeUsage
